import Mathlib

/-!
Shallow embedding of the generic `Result` error-propagation container
(package `do`, handler-bearing variant: `Result[T]` with fields `val`,
`err`, `errHandler`, and the combinators `WithReturn`, `WithJust`,
`IsError`, `Err`, `Val`, `Return`, `Map`, `MapOrErr`, `Fold`, `Check`,
`WithErrHandler`).

Modelling conventions:
- A Go `error` value (nil or non-nil) is `Option ε`: `none` is nil.
- Go zero values (`Result[newT]{err: ...}` leaves `val` at its zero
  value) are `default` of an `Inhabited` instance.
- Caller-supplied Go functions may have side effects through captured
  state, so every caller-supplied function is embedded in explicit
  state-passing style over a state type `σ` (a pure Go function is the
  special case that returns its state unchanged).  A combinator that
  invokes caller code therefore takes and returns the state.  "The
  combinator does not invoke `f`" is then expressed by the combinator's
  output (result and final state) being a fixed value independent of
  `f`, with the state returned unchanged.
- `Val` panics when the Result is an error; panicking code is embedded
  as `Option`: `none` is the panic outcome.
-/

namespace Do

/-- `Result[T]` from the source: a value, a possibly-nil error, and a
possibly-nil error handler `func(error) error`. -/
structure Result (T ε σ : Type) where
  val : T
  err : Option ε
  errHandler : Option (Option ε → σ → Option ε × σ)

variable {T newT ε σ : Type}

/-- `func (r Result[T]) handleErr(err error) error`:
if `err == nil` return nil; if `r.errHandler == nil` return `err`;
otherwise return `r.errHandler(err)`. -/
def Result.handleErr (r : Result T ε σ) (e : Option ε) (s : σ) : Option ε × σ :=
  match e with
  | none => (none, s)
  | some e0 =>
    match r.errHandler with
    | none => (some e0, s)
    | some h => h (some e0) s

/-- `WithReturn(val T, err error)`: wraps a value/error pair. -/
def WithReturn (val : T) (err : Option ε) : Result T ε σ :=
  { val := val, err := err, errHandler := none }

/-- `WithJust(val T)`: wraps a value, no error. -/
def WithJust (val : T) : Result T ε σ :=
  { val := val, err := none, errHandler := none }

/-- `IsError() bool`: true iff `r.err != nil`. -/
def Result.IsError (r : Result T ε σ) : Bool :=
  r.err.isSome

/-- `Err() error`: the encapsulated error (nil when not an error). -/
def Result.Err (r : Result T ε σ) : Option ε :=
  r.err

/-- `Val() T`: panics (`none`) when the result is an error, otherwise
returns the wrapped value. -/
def Result.Val (r : Result T ε σ) : Option T :=
  if r.IsError then none else some r.val

/-- `Return() (T, error)`: both fields, never fails. -/
def Result.Return (r : Result T ε σ) : T × Option ε :=
  (r.val, r.err)

/-- `Map(input Result[T], mapFn func(T) newT) Result[newT]`:
on error, `Result[newT]{err: input.err}` (zero value, no handler)
without calling `mapFn`; otherwise wraps `mapFn(input.val)` and carries
the handler forward. -/
def Map [Inhabited newT] (input : Result T ε σ)
    (mapFn : T → σ → newT × σ) (s : σ) : Result newT ε σ × σ :=
  if input.IsError then
    ({ val := default, err := input.err, errHandler := none }, s)
  else
    let p := mapFn input.val s
    ({ val := p.1, err := none, errHandler := input.errHandler }, p.2)

/-- `MapOrErr(input Result[T], mapFn func(T) (newT, error)) Result[newT]`:
like `Map` but `mapFn` may return an error, which is passed through
`input.handleErr` before being stored. -/
def MapOrErr [Inhabited newT] (input : Result T ε σ)
    (mapFn : T → σ → (newT × Option ε) × σ) (s : σ) : Result newT ε σ × σ :=
  if input.IsError then
    ({ val := default, err := input.err, errHandler := none }, s)
  else
    let p := mapFn input.val s
    let q := input.handleErr p.1.2 p.2
    ({ val := p.1.1, err := q.1, errHandler := input.errHandler }, q.2)

/-- `Fold(input Result[T], okFn func(T), errFn func(error))`:
calls `errFn(input.err)` when `input.IsError()`, else `okFn(input.val)`.
The callbacks are side-effecting; they are embedded as state
transformers. -/
def Fold (input : Result T ε σ) (okFn : T → σ → σ)
    (errFn : Option ε → σ → σ) (s : σ) : σ :=
  if input.IsError then errFn input.err s else okFn input.val s

/-- `Check(input Result[T], checkFn func(T) error) Result[T]`:
returns `input` unchanged when it is an error; otherwise stores
`input.handleErr(checkFn(input.val))` into (a copy of) `input.err`. -/
def Check (input : Result T ε σ) (checkFn : T → σ → Option ε × σ)
    (s : σ) : Result T ε σ × σ :=
  if input.IsError then (input, s)
  else
    let p := checkFn input.val s
    let q := input.handleErr p.1 p.2
    ({ input with err := q.1 }, q.2)

/-- `WithErrHandler(input Result[T], wrapFn func(error) error) Result[T]`:
same value and error, `wrapFn` installed as the handler (replacing any
existing one). -/
def WithErrHandler (input : Result T ε σ)
    (wrapFn : Option ε → σ → Option ε × σ) : Result T ε σ :=
  { val := input.val, err := input.err, errHandler := some wrapFn }

/-! ### Chains of combinator calls

For the handler-at-most-once claim we need to quantify over whole
chains of combinator calls.  A chain step is a `Map`, `MapOrErr` or
`Check` call with a pure caller-supplied function (pure functions keep
the state component free for counting handler invocations). -/

/-- One step of a combinator chain at a fixed value type, with a pure
caller-supplied function. -/
inductive POp (T ε : Type) where
  | map : (T → T) → POp T ε
  | mapOrErr : (T → T × Option ε) → POp T ε
  | check : (T → Option ε) → POp T ε

/-- Run one chain step: the corresponding combinator applied with the
pure function lifted to the state-passing form. -/
def POp.run [Inhabited T] (r : Result T ε σ) (op : POp T ε) (s : σ) :
    Result T ε σ × σ :=
  match op with
  | .map f => Map r (fun v s0 => (f v, s0)) s
  | .mapOrErr f => MapOrErr r (fun v s0 => (f v, s0)) s
  | .check f => Check r (fun v s0 => (f v, s0)) s

/-- Run a chain of combinator calls left to right. -/
def runChain [Inhabited T] (r : Result T ε σ) (ops : List (POp T ε))
    (s : σ) : Result T ε σ × σ :=
  match ops with
  | [] => (r, s)
  | op :: rest =>
    let p := POp.run r op s
    runChain p.1 rest p.2

/-- An error handler instrumented to count its invocations: it behaves
as the pure handler `hp` and increments a counter each time it is
called. -/
def countH (hp : Option ε → Option ε) : Option ε → Nat → Option ε × Nat :=
  fun e n => (hp e, n + 1)

/-- An Ok Result over the counter state with the counting handler
installed. -/
def okWithCountH (hp : Option ε → Option ε) (v : T) : Result T ε Nat :=
  { val := v, err := none, errHandler := some (countH hp) }

/-! ### Concrete inputs used by witnesses and counterexamples -/

/-- A concrete Err-state Result with no handler. -/
def rErrN : Result Nat Nat Nat := { val := 0, err := some 1, errHandler := none }

/-- The identity error handler, pure in the state. -/
def hIdN : Option Nat → Nat → Option Nat × Nat := fun e s => (e, s)

/-- An error handler that maps every error to nil (swallows it), pure
in the state. -/
def hNilN : Option Nat → Nat → Option Nat × Nat := fun _ s => (none, s)

/-- A concrete Err-state Result with the identity handler installed. -/
def rErrH : Result Nat Nat Nat := { val := 0, err := some 1, errHandler := some hIdN }

/-- A concrete Ok-state Result with the identity handler installed. -/
def rOkH : Result Nat Nat Nat := { val := 2, err := none, errHandler := some hIdN }

/-- A concrete Ok-state Result with no handler installed. -/
def rOkN : Result Nat Nat Nat := { val := 0, err := none, errHandler := none }

/-- A concrete Ok-state Result with the swallowing handler installed. -/
def rOkSw : Result Nat Nat Nat := { val := 0, err := none, errHandler := some hNilN }

/-- A concrete `mapFn` for `Map`, with a visible state effect. -/
def fW : Nat → Nat → Nat × Nat := fun v s => (v + 1, s + 1)

/-- A concrete `mapFn` for `MapOrErr`: always yields error 2, with a
visible state effect. -/
def gW : Nat → Nat → (Nat × Option Nat) × Nat := fun v s => ((v + 1, some 2), s + 1)

/-- A concrete `checkFn`: always yields error 3, with a visible state
effect. -/
def kW : Nat → Nat → Option Nat × Nat := fun _ s => (some 3, s + 1)

/-- A concrete `checkFn` that yields no error, with a visible state
effect. -/
def kNilW : Nat → Nat → Option Nat × Nat := fun _ s => (none, s + 1)

/-- The counting handler whose pure part swallows every error. -/
def swCount : Option Nat → Nat → Option Nat × Nat := countH (fun _ => none)

/-- A concrete Ok-state Result over the counter state with the counting
swallowing handler installed. -/
def rOkSw2 : Result Nat Nat Nat := { val := 0, err := none, errHandler := some swCount }

/-- A concrete chain of two error-producing `Check` calls. -/
def cxChain : List (POp Nat Nat) := [POp.check (fun _ => some 5), POp.check (fun _ => some 7)]

/-- A concrete chain with a single error-producing `Check`. -/
def wOps : List (POp Nat Nat) := [POp.check (fun _ => some 3)]

/-! ### Helper lemmas -/

/-- On an Err-state input, a single chain step leaves the stored error
and the state untouched. -/
theorem pop_run_err [Inhabited T] (r : Result T ε σ) (op : POp T ε) (s : σ)
    (h : r.IsError = true) :
    (POp.run r op s).1.err = r.err ∧ (POp.run r op s).2 = s := by
  cases op <;> simp [POp.run, Map, MapOrErr, Check, h]

/-- On an Err-state input, a whole chain of combinator calls leaves the
stored error and the state untouched (so neither the caller-supplied
functions nor the error handler are ever invoked). -/
theorem runChain_err_frozen [Inhabited T] (ops : List (POp T ε)) :
    ∀ (r : Result T ε σ) (s : σ), r.IsError = true →
      (runChain r ops s).1.err = r.err ∧ (runChain r ops s).2 = s := by
  induction ops with
  | nil => intro r s _; exact ⟨rfl, rfl⟩
  | cons op rest ih =>
    intro r s h
    have hrun := pop_run_err r op s h
    have h2 : (POp.run r op s).1.IsError = true := by
      simp [Result.IsError, hrun.1]
      simpa [Result.IsError] using h
    have := ih (POp.run r op s).1 (POp.run r op s).2 h2
    simp only [runChain]
    exact ⟨this.1.trans hrun.1, this.2.trans hrun.2⟩

/-- Starting Ok with the counting handler installed, a chain of
combinator calls with pure caller-supplied functions whose handler part
`hp` never maps a produced error to nil bumps the handler-invocation
counter exactly once if the chain ends in the Err state, and never
otherwise. -/
theorem runChain_count [Inhabited T] (hp : Option ε → Option ε)
    (hns : ∀ e : ε, (hp (some e)).isSome = true) (ops : List (POp T ε)) :
    ∀ (v : T) (n : Nat),
      (runChain (okWithCountH hp v) ops n).2
        = n + (if (runChain (okWithCountH hp v) ops n).1.IsError then 1 else 0) := by
  induction ops with
  | nil => intro v n; simp [runChain, okWithCountH, Result.IsError]
  | cons op rest ih =>
    intro v n
    cases op with
    | map f =>
      have hstep : POp.run (okWithCountH hp v) (POp.map f) n
          = (okWithCountH hp (f v), n) := by
        simp [POp.run, Map, okWithCountH, Result.IsError]
      simp only [runChain, hstep]
      exact ih (f v) n
    | mapOrErr f =>
      cases hfe : (f v).2 with
      | none =>
        have hstep : POp.run (okWithCountH hp v) (POp.mapOrErr f) n
            = (okWithCountH hp (f v).1, n) := by
          simp [POp.run, MapOrErr, okWithCountH, Result.IsError, Result.handleErr, hfe]
        simp only [runChain, hstep]
        exact ih (f v).1 n
      | some e =>
        obtain ⟨e2, he2⟩ := Option.isSome_iff_exists.mp (hns e)
        have hstep : POp.run (okWithCountH hp v) (POp.mapOrErr f) n
            = (Result.mk (f v).1 (some e2) (some (countH hp)), n + 1) := by
          simp [POp.run, MapOrErr, okWithCountH, Result.IsError, Result.handleErr, hfe,
            countH, he2]
        have hErr2 : (Result.mk (f v).1 (some e2) (some (countH hp)) : Result T ε Nat).IsError
            = true := by
          simp [Result.IsError]
        have hfroz := runChain_err_frozen rest
          (Result.mk (f v).1 (some e2) (some (countH hp))) (n + 1) hErr2
        simp only [runChain, hstep]
        simp [Result.IsError, hfroz.1, hfroz.2]
    | check f =>
      cases hfe : f v with
      | none =>
        have hstep : POp.run (okWithCountH hp v) (POp.check f) n
            = (okWithCountH hp v, n) := by
          simp [POp.run, Check, okWithCountH, Result.IsError, Result.handleErr, hfe]
        simp only [runChain, hstep]
        exact ih v n
      | some e =>
        obtain ⟨e2, he2⟩ := Option.isSome_iff_exists.mp (hns e)
        have hstep : POp.run (okWithCountH hp v) (POp.check f) n
            = (Result.mk v (some e2) (some (countH hp)), n + 1) := by
          simp [POp.run, Check, okWithCountH, Result.IsError, Result.handleErr, hfe,
            countH, he2]
        have hErr2 : (Result.mk v (some e2) (some (countH hp)) : Result T ε Nat).IsError
            = true := by
          simp [Result.IsError]
        have hfroz := runChain_err_frozen rest
          (Result.mk v (some e2) (some (countH hp))) (n + 1) hErr2
        simp only [runChain, hstep]
        simp [Result.IsError, hfroz.1, hfroz.2]

/-! ### Claim theorems -/

/-- Claim C1: for every Err-state Result `r` and caller-supplied
functions, `Map`, `MapOrErr` and `Check` do not invoke the function
(their output — result and final state — is a fixed value independent
of the function, with the state returned unchanged), and the failure of
the returned Result equals `r`'s failure. -/
theorem c1_err_short_circuit [Inhabited newT] (r : Result T ε σ)
    (hErr : r.IsError = true)
    (f : T → σ → newT × σ) (g : T → σ → (newT × Option ε) × σ)
    (k : T → σ → Option ε × σ) (s : σ) :
    Map r f s = ({ val := default, err := r.err, errHandler := none }, s)
  ∧ MapOrErr r g s = ({ val := default, err := r.err, errHandler := none }, s)
  ∧ Check r k s = (r, s)
  ∧ (Map r f s).1.Err = r.Err
  ∧ (MapOrErr r g s).1.Err = r.Err
  ∧ (Check r k s).1.Err = r.Err := by
  simp [Map, MapOrErr, Check, hErr, Result.Err]

/-- Witness for C1 at a concrete Err-state Result and concrete
state-touching functions. -/
theorem c1_err_short_circuit_witness :
    rErrN.IsError = true
  ∧ (Map rErrN fW 0 = ({ val := default, err := rErrN.err, errHandler := none }, 0)
  ∧ MapOrErr rErrN gW 0 = ({ val := default, err := rErrN.err, errHandler := none }, 0)
  ∧ Check rErrN kW 0 = (rErrN, 0)
  ∧ (Map rErrN fW 0).1.Err = rErrN.Err
  ∧ (MapOrErr rErrN gW 0).1.Err = rErrN.Err
  ∧ (Check rErrN kW 0).1.Err = rErrN.Err) :=
  ⟨rfl, c1_err_short_circuit rErrN rfl fW gW kW 0⟩

/-- Claim C2, counterexample: with a handler installed that maps every
incoming error to nil, a chain of two error-producing `Check` calls
invokes the handler twice (the invocation counter rises from 0 to 2),
so the handler is not invoked at most once per chain. -/
theorem c2_handler_twice_counterexample :
    (runChain rOkSw2 cxChain 0).2 = 2 ∧ ¬ (runChain rOkSw2 cxChain 0).2 ≤ 1 := by
  refine ⟨rfl, ?_⟩
  decide

/-- Claim C2, amended: if the installed handler never maps a produced
error to nil, then along any chain of `Map`/`MapOrErr`/`Check` calls
with pure caller-supplied functions the handler fires exactly once when
the chain ends Err (i.e. when some `Check`/`MapOrErr` step on an
Ok-state input produced an error) and never otherwise; and once a
failure is recorded (Err-state input), no subsequent call in the chain
invokes the handler (or any caller-supplied function): the state is
returned unchanged. -/
theorem c2_handler_once_amended [Inhabited T] (hp : Option ε → Option ε)
    (hns : ∀ e : ε, (hp (some e)).isSome = true)
    (ops : List (POp T ε)) (v : T) (n : Nat)
    (r : Result T ε Nat) (s : Nat) (hr : r.IsError = true) :
    ((runChain (okWithCountH hp v) ops n).2
       = n + (if (runChain (okWithCountH hp v) ops n).1.IsError then 1 else 0))
  ∧ (runChain r ops s).2 = s :=
  ⟨runChain_count hp hns ops v n, (runChain_err_frozen ops r s hr).2⟩

/-- Witness for the amended C2 at the identity handler, a concrete
one-`Check` chain, and a concrete Err-state start. -/
theorem c2_handler_once_amended_witness :
    ((runChain (okWithCountH (fun x : Option Nat => x) 0) wOps 0).2
       = 0 + (if (runChain (okWithCountH (fun x : Option Nat => x) 0) wOps 0).1.IsError
              then 1 else 0))
  ∧ (runChain rErrH wOps 5).2 = 5 :=
  c2_handler_once_amended (fun x => x) (fun _ => rfl) wOps 0 0 rErrH 5 rfl

/-- Claim C3, counterexample: `Map` on an Err-state input does not
carry the error handler — the input has a handler installed, the
output has none. -/
theorem c3_map_drops_handler_on_err :
    rErrH.errHandler.isSome = true
  ∧ ((Map rErrH fW 0).1.errHandler).isSome = false :=
  ⟨rfl, rfl⟩

/-- Claim C3, amended: for an Err-state input `Map` returns an
Err Result of the new type carrying the same failure but with no error
handler (the handler is not carried over on the error branch), without
invoking `f`; for an Ok-state input with value `v` it returns an Ok
Result with value `f(v)`, carrying forward the input's error
handler. -/
theorem c3_map_handler_amended [Inhabited newT]
    (r1 : Result T ε σ) (f1 : T → σ → newT × σ) (s1 : σ) (h1 : r1.IsError = true)
    (r2 : Result T ε σ) (f2 : T → σ → newT × σ) (s2 : σ) (h2 : r2.IsError = false) :
    Map r1 f1 s1 = ({ val := default, err := r1.err, errHandler := none }, s1)
  ∧ Map r2 f2 s2
      = ({ val := (f2 r2.val s2).1, err := none, errHandler := r2.errHandler },
         (f2 r2.val s2).2) := by
  constructor
  · simp [Map, h1]
  · simp [Map, h2]

/-- Witness for the amended C3 at a concrete Err-state input and a
concrete Ok-state input, both with a handler installed. -/
theorem c3_map_handler_amended_witness :
    rErrH.IsError = true ∧ rOkH.IsError = false
  ∧ (Map rErrH fW 0 = ({ val := default, err := rErrH.err, errHandler := none }, 0)
  ∧ Map rOkH fW 0
      = ({ val := (fW rOkH.val 0).1, err := none, errHandler := rOkH.errHandler },
         (fW rOkH.val 0).2)) :=
  ⟨rfl, rfl, c3_map_handler_amended rErrH fW 0 rfl rOkH fW 0 rfl⟩

/-- Claim C4: `Val` on an Err-state Result panics (modelled as `none`)
rather than returning a default value; on an Ok-state Result it returns
the wrapped value. -/
theorem c4_val_fails_loudly (r1 r2 : Result T ε σ) (h1 : r1.IsError = true)
    (h2 : r2.IsError = false) :
    r1.Val = none ∧ r2.Val = some r2.val := by
  constructor
  · simp [Result.Val, h1]
  · simp [Result.Val, h2]

/-- Witness for C4 at a concrete Err-state and a concrete Ok-state
Result. -/
theorem c4_val_fails_loudly_witness :
    rErrN.IsError = true ∧ rOkN.IsError = false
  ∧ (rErrN.Val = none ∧ rOkN.Val = some rOkN.val) :=
  ⟨rfl, rfl, c4_val_fails_loudly rErrN rOkN rfl rfl⟩

/-- Claim C5: for an Ok-state Result with handler `h` installed,
`MapOrErr` invokes `f` on the Result's value; when `f` yields a non-nil
error `e`, the returned Result's failure equals `h(e)` and the returned
Result carries the handler `h` unchanged. -/
theorem c5_mapOrErr_applies_handler [Inhabited newT] (r : Result T ε σ)
    (h : Option ε → σ → Option ε × σ)
    (hOk : r.IsError = false) (hH : r.errHandler = some h)
    (f : T → σ → (newT × Option ε) × σ) (s : σ)
    (v2 : newT) (e : ε) (s2 : σ)
    (hf : f r.val s = ((v2, some e), s2)) :
    MapOrErr r f s
      = ({ val := v2, err := (h (some e) s2).1, errHandler := some h },
         (h (some e) s2).2) := by
  simp [MapOrErr, hOk, Result.handleErr, hf, hH]

/-- Witness for C5 at a concrete Ok-state Result with the identity
handler and a concrete error-producing `mapFn`. -/
theorem c5_mapOrErr_applies_handler_witness :
    rOkH.IsError = false ∧ rOkH.errHandler = some hIdN
  ∧ gW rOkH.val 0 = ((3, some 2), 1)
  ∧ MapOrErr rOkH gW 0
      = ({ val := 3, err := (hIdN (some 2) 1).1, errHandler := some hIdN },
         (hIdN (some 2) 1).2) :=
  ⟨rfl, rfl, rfl, c5_mapOrErr_applies_handler rOkH hIdN rfl rfl gW 0 3 2 1 rfl⟩

/-- Claim C6, counterexample: on an Ok-state input whose `checkFn`
returns a non-nil error, `Check` does NOT transition to the Err state
when the installed handler maps that error to nil — the output is still
Ok. -/
theorem c6_check_stays_ok_counterexample :
    rOkSw.IsError = false
  ∧ (kW rOkSw.val 0).1 = some 3
  ∧ (Check rOkSw kW 0).1.IsError = false :=
  ⟨rfl, rfl, rfl⟩

/-- Claim C6, amended: if the input is Err, `Check` returns it
unchanged without calling `f`; if the input is Ok and `f` yields a
non-nil error `e`, the output's recorded error is `e` passed through
the installed handler — in particular Err carrying `e` itself when no
handler is installed — while the value and handler fields are
preserved (the output is Ok when the handler maps `e` to nil); if the
input is Ok and `f` yields nil, the Result is returned unchanged. -/
theorem c6_check_amended (r1 : Result T ε σ) (f1 : T → σ → Option ε × σ) (s1 : σ)
    (h1 : r1.IsError = true)
    (r2 : Result T ε σ) (f2 : T → σ → Option ε × σ) (s2 : σ) (e : ε) (t2 : σ)
    (h2 : r2.IsError = false) (hf2 : f2 r2.val s2 = (some e, t2))
    (r3 : Result T ε σ) (f3 : T → σ → Option ε × σ) (s3 : σ) (t3 : σ)
    (h3 : r3.IsError = false) (hf3 : f3 r3.val s3 = (none, t3)) :
    Check r1 f1 s1 = (r1, s1)
  ∧ Check r2 f2 s2
      = ({ r2 with err := (r2.handleErr (some e) t2).1 }, (r2.handleErr (some e) t2).2)
  ∧ (r2.errHandler = none → (Check r2 f2 s2).1.err = some e)
  ∧ Check r3 f3 s3 = (r3, t3) := by
  have hr3 : r3.err = none := by
    cases hE : r3.err with
    | none => rfl
    | some x => rw [Result.IsError, hE] at h3; simp at h3
  refine ⟨by simp [Check, h1], by simp [Check, h2, hf2], ?_, ?_⟩
  · intro hnh
    simp [Check, h2, hf2, Result.handleErr, hnh]
  · cases r3 with
    | mk v3 e3 hh3 =>
      simp only at hr3
      subst hr3
      simp [Check, Result.IsError, hf3, Result.handleErr]

/-- Witness for the amended C6: an Err-state input with `Check`, an
Ok-state no-handler input with an error-producing `checkFn`, and an
Ok-state input with a nil-returning `checkFn`. -/
theorem c6_check_amended_witness :
    rErrH.IsError = true ∧ rOkN.IsError = false
  ∧ kW rOkN.val 0 = (some 3, 1) ∧ kNilW rOkN.val 0 = (none, 1)
  ∧ (Check rErrH kW 0 = (rErrH, 0)
  ∧ Check rOkN kW 0
      = ({ rOkN with err := (rOkN.handleErr (some 3) 1).1 }, (rOkN.handleErr (some 3) 1).2)
  ∧ (rOkN.errHandler = none → (Check rOkN kW 0).1.err = some 3)
  ∧ Check rOkN kNilW 0 = (rOkN, 1)) :=
  ⟨rfl, rfl, rfl, rfl,
   c6_check_amended rErrH kW 0 rfl rOkN kW 0 3 1 rfl rfl rOkN kNilW 0 1 rfl rfl⟩

/-- Claim C7: `WithErrHandler` preserves the observable value and
failure state (no retroactive transformation of an already recorded
error) and installs `h` as the handler, replacing any previously
installed one. -/
theorem c7_withErrHandler_frame (r : Result T ε σ)
    (h : Option ε → σ → Option ε × σ) :
    (WithErrHandler r h).Err = r.Err
  ∧ (WithErrHandler r h).IsError = r.IsError
  ∧ (WithErrHandler r h).Val = r.Val
  ∧ (WithErrHandler r h).errHandler = some h := by
  simp [WithErrHandler, Result.Err, Result.IsError, Result.Val]

/-- Claim C8: the Result built by `WithReturn v e` is Err exactly when
`e` is non-nil, and its recorded error is exactly `e`. -/
theorem c8_withReturn_ok_iff (v : T) (e : Option ε) :
    (WithReturn v e : Result T ε σ).IsError = e.isSome
  ∧ (WithReturn v e : Result T ε σ).Err = e := by
  simp [WithReturn, Result.IsError, Result.Err]

/-- Claim C9: `Fold` invokes exactly one of its two callbacks exactly
once, matching the Result's state, passing the failure to the error
branch and the value to the success branch.  The callbacks are
instrumented to count their invocations and record the argument they
received. -/
theorem c9_fold_exclusive {T ε : Type}
    (r : Result T ε ((Nat × Nat) × Option (Sum T (Option ε)))) :
    Fold r (fun v s => ((s.1.1 + 1, s.1.2), some (Sum.inl v)))
           (fun e s => ((s.1.1, s.1.2 + 1), some (Sum.inr e)))
           ((0, 0), none)
      = (if r.IsError then ((0, 1), some (Sum.inr r.err))
         else ((1, 0), some (Sum.inl r.val))) := by
  cases hE : r.err with
  | none => simp [Fold, Result.IsError, hE]
  | some x => simp [Fold, Result.IsError, hE]

/-- Claim C10: when the installed handler maps a freshly produced
non-nil error to nil, `Check` and `MapOrErr` record no failure and the
returned Result is Ok. -/
theorem c10_handler_swallow [Inhabited newT] (r : Result T ε σ)
    (h : Option ε → σ → Option ε × σ)
    (hOk : r.IsError = false) (hH : r.errHandler = some h)
    (k : T → σ → Option ε × σ) (f : T → σ → (newT × Option ε) × σ) (s : σ)
    (e1 : ε) (s1 t1 : σ) (hk : k r.val s = (some e1, s1))
    (hsw1 : h (some e1) s1 = (none, t1))
    (e2 : ε) (v2 : newT) (s2 t2 : σ) (hf : f r.val s = ((v2, some e2), s2))
    (hsw2 : h (some e2) s2 = (none, t2)) :
    (Check r k s).1.IsError = false ∧ (Check r k s).1.err = none
  ∧ (MapOrErr r f s).1.IsError = false ∧ (MapOrErr r f s).1.err = none := by
  have hne : r.err.isSome = false := by simpa [Result.IsError] using hOk
  simp [Check, MapOrErr, hOk, Result.handleErr, hk, hf, hH, hsw1, hsw2, Result.IsError, hne]

/-- Witness for C10 at a concrete Ok-state Result with the swallowing
handler and concrete error-producing `checkFn`/`mapFn`. -/
theorem c10_handler_swallow_witness :
    rOkSw.IsError = false ∧ rOkSw.errHandler = some hNilN
  ∧ kW rOkSw.val 0 = (some 3, 1) ∧ hNilN (some 3) 1 = (none, 1)
  ∧ gW rOkSw.val 0 = ((1, some 2), 1) ∧ hNilN (some 2) 1 = (none, 1)
  ∧ ((Check rOkSw kW 0).1.IsError = false ∧ (Check rOkSw kW 0).1.err = none
  ∧ (MapOrErr rOkSw gW 0).1.IsError = false ∧ (MapOrErr rOkSw gW 0).1.err = none) :=
  ⟨rfl, rfl, rfl, rfl, rfl, rfl,
   c10_handler_swallow rOkSw hNilN rfl rfl kW gW 0 3 1 1 rfl rfl 2 1 1 1 rfl rfl⟩

end Do
